import Mathlib

/-!
Shallow embedding of the transaction-tracking core of this web3.js branch:
the per-transaction lifecycle state machine (transactionLifecycle.js), the
transaction manager (transactionManager.js) and the block-head tracker
(blockTracker.js).  JavaScript dynamic values are modelled explicitly:
a possibly-absent object property is an `Option`, a thrown exception is the
`Except.error` branch, and JavaScript string/number truthiness is spelled
out by small helper functions.
-/

namespace Web3

/-- Errors thrown by the embedded JavaScript: `throw new Error(msg)`,
a `TypeError` raised by the runtime (e.g. assignment to a `const` binding,
property access on `null`/`undefined`), or a `ReferenceError` raised when an
undeclared identifier is evaluated. -/
inductive JsError where
  | error (message : String)
  | typeError (message : String)
  | referenceError (message : String)
  deriving DecidableEq

/-- A transaction receipt.  The manager and the lifecycle treat the receipt
as an object they merely store and forward; only the fields named by the
block-header feed are modelled. -/
structure Receipt where
  blockHash : String
  blockNumber : Nat
  deriving DecidableEq

/-- A transaction object as the manager reads it: the plain fields
`data`, `from`, `gas`, `gasPrice`, `to` used for remote signing, the
signature triple `v`, `r`, `s`, and the `rawTransaction` payload of a signed
transaction.  Every field is a possibly-absent (`undefined`) string. -/
structure Transaction where
  data : Option String
  «from» : Option String
  gas : Option String
  gasPrice : Option String
  «to» : Option String
  v : Option String
  r : Option String
  s : Option String
  rawTransaction : Option String
  deriving DecidableEq

/-- JavaScript truthiness of a possibly-absent string property:
`undefined` and the empty string are falsy, every other string is truthy. -/
def jsTruthyStr : Option String → Bool
  | none => false
  | some s => !(s == "")

/-- JavaScript truthiness of a possibly-absent number property:
`undefined` and `0` are falsy. -/
def jsTruthyNum : Option Nat → Bool
  | none => false
  | some n => !(n == 0)

/-- Rendering of `this._state` inside a template literal: an `undefined`
property prints as the string `undefined`. -/
def jsShowState : Option String → String
  | none => "undefined"
  | some s => s

/-- Events emitted by a `TransactionLifecycle` via `this.emit(...)`,
with the payload each call site passes. -/
inductive LifecycleEvent where
  | submitted
  | failedToSubmit (err : JsError)
  | mined (receipt : Receipt)
  | confirmed (receipt : Option Receipt)
  | confirmedWithError (err : JsError)
  | reorgedOut
  | done
  deriving DecidableEq

/-- The mutable state of a `TransactionLifecycle` object.  The constructor
(transactionLifecycle.js lines 34-40) writes `_transaction`, `_stage`,
`_receipt` and `_confirmationsRequired`; the transition methods write the
distinct property `_state` (lines 83, 96, 111, 124, 137, 150), which no
constructor initialises, so `_state` starts out `undefined` (`none`).
`_confirmationsRequired` is `Option` because `send` constructs the object
with the second argument missing on the unsigned path. -/
structure TransactionLifecycle where
  _transaction : Transaction
  _stage : String
  _receipt : Option Receipt
  _confirmationsRequired : Option Nat
  _state : Option String
  deriving DecidableEq

/-- Embeds `new TransactionLifecycle(transaction, confirmationsRequired)`
(transactionLifecycle.js lines 34-40). -/
def TransactionLifecycle.new (transaction : Transaction)
    (confirmationsRequired : Option Nat) : TransactionLifecycle :=
  { _transaction := transaction
    _stage := "unsubmitted"
    _receipt := none
    _confirmationsRequired := confirmationsRequired
    _state := none }

/-- Getter `transaction` (transactionLifecycle.js lines 46-48). -/
def TransactionLifecycle.transaction (l : TransactionLifecycle) : Transaction :=
  l._transaction

/-- Getter `stage` (transactionLifecycle.js lines 55-57): it reads the
property `_stage`. -/
def TransactionLifecycle.stage (l : TransactionLifecycle) : String :=
  l._stage

/-- Getter `receipt` (transactionLifecycle.js lines 64-66). -/
def TransactionLifecycle.receipt (l : TransactionLifecycle) : Option Receipt :=
  l._receipt

/-- Getter `confirmationsRequired` (transactionLifecycle.js lines 73-75). -/
def TransactionLifecycle.confirmationsRequired (l : TransactionLifecycle) : Option Nat :=
  l._confirmationsRequired

/-- The message of the `Error` thrown by `_checkPrecondition` when
`allowedStates` is a single string: the template literal interpolates
`this._state`, the desired state and the allowed state. -/
def invalidTransitionMsgSingle (state : Option String)
    (desiredState allowedStates : String) : String :=
  "Invalid transaction lifecycle state transition! Current state: \"" ++
    jsShowState state ++ ",\" desired state: " ++
    "\"" ++ desiredState ++ ",\" allowed state: " ++ allowedStates

/-- Embeds `_checkPrecondition(allowedStates, desiredState)`
(transactionLifecycle.js lines 165-177).  When `allowedStates` is an array,
the guard evaluates `states.includes(this._state)` where `states` is an
undeclared identifier, so the call raises a `ReferenceError`.  When
`allowedStates` is a string, the `else if` compares `allowedStates`
against `desiredState` (not against `this._state`), and throws whenever
the two differ. -/
def TransactionLifecycle._checkPrecondition (l : TransactionLifecycle)
    (allowedStates : String ⊕ List String) (desiredState : String) :
    Except JsError Unit :=
  match allowedStates with
  | Sum.inr _ =>
    Except.error (JsError.referenceError "states is not defined")
  | Sum.inl allowed =>
    if allowed ≠ desiredState then
      Except.error (JsError.error (invalidTransitionMsgSingle l._state desiredState allowed))
    else
      Except.ok ()

/-- Embeds `setSubmitted()` (transactionLifecycle.js lines 82-86): check the
precondition, write `this._state = "submitted"`, emit `submitted`.  The
call site in `send` passes a transaction hash, but the method declares no
parameter and the `submitted` event carries no payload. -/
def TransactionLifecycle.setSubmitted (l : TransactionLifecycle) :
    Except JsError (TransactionLifecycle × List LifecycleEvent) := do
  l._checkPrecondition (Sum.inl "unsubmitted") "submitted"
  let l := { l with _state := some "submitted" }
  return (l, [LifecycleEvent.submitted])

/-- Embeds `setFailedToSubmit(err)` (transactionLifecycle.js lines 94-99):
check the precondition, write `this._state = "failedToSubmit"`, emit
`failedToSubmit` with the error, then emit `done`. -/
def TransactionLifecycle.setFailedToSubmit (l : TransactionLifecycle)
    (err : JsError) : Except JsError (TransactionLifecycle × List LifecycleEvent) := do
  l._checkPrecondition (Sum.inl "unsubmitted") "failedToSubmit"
  let l := { l with _state := some "failedToSubmit" }
  return (l, [LifecycleEvent.failedToSubmit err, LifecycleEvent.done])

/-- Embeds `setMined(receipt)` (transactionLifecycle.js lines 109-114):
check the precondition, write `this._state = "mined"` and
`this._receipt = receipt`, emit `mined` with the receipt. -/
def TransactionLifecycle.setMined (l : TransactionLifecycle)
    (receipt : Receipt) : Except JsError (TransactionLifecycle × List LifecycleEvent) := do
  l._checkPrecondition (Sum.inl "submitted") "mined"
  let l := { l with _state := some "mined", _receipt := some receipt }
  return (l, [LifecycleEvent.mined receipt])

/-- Embeds `setConfirmed()` (transactionLifecycle.js lines 122-127):
check the precondition, write `this._state = "confirmed"`, emit `confirmed`
with `this._receipt`, then emit `done`. -/
def TransactionLifecycle.setConfirmed (l : TransactionLifecycle) :
    Except JsError (TransactionLifecycle × List LifecycleEvent) := do
  l._checkPrecondition (Sum.inl "mined") "confirmed"
  let l := { l with _state := some "confirmed" }
  return (l, [LifecycleEvent.confirmed l._receipt, LifecycleEvent.done])

/-- Embeds `setConfirmedWithError(err)` (transactionLifecycle.js lines
136-141): check the precondition, write `this._state = "confirmedWithError"`,
emit `confirmedWithError` with the error, then emit `done`. -/
def TransactionLifecycle.setConfirmedWithError (l : TransactionLifecycle)
    (err : JsError) : Except JsError (TransactionLifecycle × List LifecycleEvent) := do
  l._checkPrecondition (Sum.inl "mined") "confirmedWithError"
  let l := { l with _state := some "confirmedWithError" }
  return (l, [LifecycleEvent.confirmedWithError err, LifecycleEvent.done])

/-- Embeds `setReorgedOut()` (transactionLifecycle.js lines 150-155):
check the precondition, write `this._state = "reorgedOut"`, emit
`reorgedOut`, then emit `done`. -/
def TransactionLifecycle.setReorgedOut (l : TransactionLifecycle) :
    Except JsError (TransactionLifecycle × List LifecycleEvent) := do
  l._checkPrecondition (Sum.inl "mined") "reorgedOut"
  let l := { l with _state := some "reorgedOut" }
  return (l, [LifecycleEvent.reorgedOut, LifecycleEvent.done])

/-- One invocation of a public transition method, with its argument. -/
inductive LifecycleOp where
  | opSetSubmitted
  | opSetFailedToSubmit (err : JsError)
  | opSetMined (receipt : Receipt)
  | opSetConfirmed
  | opSetConfirmedWithError (err : JsError)
  | opSetReorgedOut
  deriving DecidableEq

/-- Dispatches a `LifecycleOp` to the corresponding transition method. -/
def applyOp (l : TransactionLifecycle) : LifecycleOp →
    Except JsError (TransactionLifecycle × List LifecycleEvent)
  | LifecycleOp.opSetSubmitted => l.setSubmitted
  | LifecycleOp.opSetFailedToSubmit err => l.setFailedToSubmit err
  | LifecycleOp.opSetMined receipt => l.setMined receipt
  | LifecycleOp.opSetConfirmed => l.setConfirmed
  | LifecycleOp.opSetConfirmedWithError err => l.setConfirmedWithError err
  | LifecycleOp.opSetReorgedOut => l.setReorgedOut

/-- The object state after attempting a transition: every method performs
its precondition check before any write, so a throwing call leaves the
object unchanged. -/
def stepOp (l : TransactionLifecycle) (op : LifecycleOp) : TransactionLifecycle :=
  match applyOp l op with
  | Except.ok (l2, _) => l2
  | Except.error _ => l

/-- The object state after attempting a whole sequence of transitions. -/
def runOps (l : TransactionLifecycle) : List LifecycleOp → TransactionLifecycle
  | [] => l
  | op :: rest => runOps (stepOp l op) rest

/-- The events a transition attempt emitted: a call that throws at its
precondition check has emitted nothing. -/
def eventsOf (r : Except JsError (TransactionLifecycle × List LifecycleEvent)) :
    List LifecycleEvent :=
  match r with
  | Except.ok (_, evs) => evs
  | Except.error _ => []

/-- Discriminates the thrown branch of an embedded call. -/
def isErr {α : Type} (r : Except JsError α) : Bool :=
  match r with
  | Except.ok _ => false
  | Except.error _ => true

/-- A decoded block header from the new-block-headers subscription. -/
structure BlockHeader where
  number : Nat
  hash : String
  parentHash : String
  deriving DecidableEq

/-- Events a BlockTracker can emit.  The source emits only `block` events;
the `reorg` constructor exists in the event vocabulary because the source
comment reads "need to emit an event for reorg with new blocks", but no
statement in blockTracker.js constructs one. -/
inductive BlockTrackerEvent where
  | block (header : BlockHeader)
  | reorg (ancestor : BlockHeader) (detached : List BlockHeader)
      (attached : List BlockHeader)
  deriving DecidableEq

/-- The state of a BlockTracker object: the constructor (blockTracker.js
lines 6-12) sets `_latestBlock = null`, and no other statement in the
class ever writes that property. -/
structure BlockTracker where
  _latestBlock : Option BlockHeader
  deriving DecidableEq

/-- Embeds `new BlockTracker(requestManager)` (blockTracker.js lines 6-12). -/
def BlockTracker.new : BlockTracker :=
  { _latestBlock := none }

/-- Embeds the "data" handler installed by the subscription setup in
blockTracker.js lines 14-33: `(block) => _this.emit("block", block)`.
Every incoming header is forwarded unchanged as a `block` event;
`_latestBlock` is neither consulted nor updated, no parent-hash check is
performed, and no queue is used (the source comment reads "should use
ordered block queue, not this"). -/
def blockTrackerOnData (t : BlockTracker) (header : BlockHeader) :
    BlockTracker × List BlockTrackerEvent :=
  (t, [BlockTrackerEvent.block header])

/-- A wallet entry: key material carrying an address and a private key,
each possibly absent. -/
structure Wallet where
  address : Option String
  privateKey : Option String
  deriving DecidableEq

/-- JavaScript property lookup on the wallet collection object
`accounts.wallet`: the value bound to the key, or `undefined`. -/
def jsGet (wallet : List (String × Wallet)) (key : String) : Option Wallet :=
  match wallet.find? (fun p => p.1 == key) with
  | some p => some p.2
  | none => none

/-- The `from` designator handed to `_getWallet`: `send` passes `tx.from`
for an object transaction and `null` otherwise, so the designator may be a
string (index or address), an account object, or `null`. -/
inductive FromDesignator where
  | str (s : String)
  | account (w : Wallet)
  | nullv
  deriving DecidableEq

/-- The property key JavaScript coerces the designator to in
`accounts.wallet[from]`: strings are used as-is, objects stringify to
"[object Object]", and `null` stringifies to "null". -/
def designatorKey : FromDesignator → String
  | FromDesignator.str s => s
  | FromDesignator.account _ => "[object Object]"
  | FromDesignator.nullv => "null"

/-- Embeds `_getWallet(from, accounts)` (transactionManager.js lines
127-144).  The function declares `const wallet = null;` and then assigns
to `wallet` in every branch; assigning to a `const` binding raises a
`TypeError`, so whichever branch is selected the call throws.  The branch
conditions are still evaluated in source order: when the indexed lookup
misses and the designator is `null`, evaluating `from.address` throws its
own `TypeError` first, and when the designator is an object without both
`address` and `privateKey`, evaluating `from.toLowerCase()` throws. -/
def _getWallet (f : FromDesignator) (wallet : List (String × Wallet)) :
    Except JsError Wallet :=
  if (jsGet wallet (designatorKey f)).isSome then
    Except.error (JsError.typeError "Assignment to constant variable.")
  else
    match f with
    | FromDesignator.nullv =>
      Except.error (JsError.typeError "Cannot read properties of null (reading address)")
    | FromDesignator.account w =>
      if jsTruthyStr w.address && jsTruthyStr w.privateKey then
        Except.error (JsError.typeError "Assignment to constant variable.")
      else
        Except.error (JsError.typeError "from.toLowerCase is not a function")
    | FromDesignator.str _ =>
      Except.error (JsError.typeError "Assignment to constant variable.")

/-- JavaScript `String.prototype.toLowerCase()`, modelled character by
character (the inputs in scope are ASCII). -/
def jsToLowerCase (s : String) : String :=
  String.mk (s.data.map Char.toLower)

/-- The lookup the final branch of `_getWallet` computes before its
assignment throws: `accounts.wallet[from.toLowerCase()]`.  Only the
designator is lowercased; the stored keys are compared as-is. -/
def addressStringLookup (wallet : List (String × Wallet)) (f : String) :
    Option Wallet :=
  jsGet wallet (jsToLowerCase f)

/-- The `accounts` collaborator as the manager reads it:
`method.accounts.wallet` may be absent. -/
structure Accounts where
  wallet : Option (List (String × Wallet))
  deriving DecidableEq

/-- The `method` argument of `send` as the manager reads it. -/
structure Method where
  accounts : Option Accounts
  transactionConfirmationBlocks : Option Nat
  deriving DecidableEq

/-- Embeds `_isSignedTransaction(tx)` (transactionManager.js lines
146-152): true when the signature triple `v`, `r`, `s` is entirely truthy,
and otherwise the truthiness of `rawTransaction`. -/
def _isSignedTransaction (tx : Transaction) : Bool :=
  if jsTruthyStr tx.v && jsTruthyStr tx.r && jsTruthyStr tx.s then
    true
  else
    jsTruthyStr tx.rawTransaction

/-- Embeds `_signIfNecessary(transaction, method)` (transactionManager.js
lines 89-124).  The guard returns the transaction unchanged when `method`,
`method.accounts`, `method.accounts.wallet` or the wallet length is falsy.
Past the guard, line 94 evaluates `_isSignedTransaction(tx)` where `tx` is
an undeclared identifier, so the call raises a `ReferenceError` before any
signing work happens. -/
def _signIfNecessary (transaction : Transaction) (method : Option Method) :
    Except JsError Transaction :=
  match method with
  | none => Except.ok transaction
  | some m =>
    match m.accounts with
    | none => Except.ok transaction
    | some a =>
      match a.wallet with
      | none => Except.ok transaction
      | some w =>
        if w.length = 0 then
          Except.ok transaction
        else
          Except.error (JsError.referenceError "tx is not defined")

/-- The single element of the `params` array `send` builds: the raw
transaction string, `undefined` when a signed transaction lacks
`rawTransaction`, or the plain-fields object of lines 28-34. -/
inductive SubmitParam where
  | str (s : String)
  | undef
  | obj (data «from» gas gasPrice «to» : Option String)
  deriving DecidableEq

/-- Tests `typeof params[0] === "string"` (transactionManager.js line 45). -/
def isStringParam : SubmitParam → Bool
  | SubmitParam.str _ => true
  | _ => false

/-- The RPC method name `_submitTransaction` selects (transactionManager.js
line 45), a function of the shape of `params[0]` alone. -/
def submitRpcMethod (p : SubmitParam) : String :=
  if isStringParam p then "eth_sendRawTransaction" else "eth_sendTransaction"

/-- The RPC collaborator behind `this._requestManager.send({method, params},
callback)`: the callback either reports an error, on which the wrapping
promise rejects, or a result string, on which it resolves. -/
def RpcCollaborator : Type := String → SubmitParam → Except JsError String

/-- Embeds `_submitTransaction(params)` (transactionManager.js lines
44-57). -/
def _submitTransaction (rpc : RpcCollaborator) (params : SubmitParam) :
    Except JsError String :=
  rpc (submitRpcMethod params) params

/-- The `params[0]` value `send` builds (transactionManager.js lines
23-35): `signedTransaction.rawTransaction` on the signed path, and
otherwise the object carrying exactly the fields `data`, `from`, `gas`,
`gasPrice` and `to` of the transaction. -/
def sendSubmitParam (transaction signedTransaction : Transaction) : SubmitParam :=
  if _isSignedTransaction signedTransaction then
    match signedTransaction.rawTransaction with
    | some raw => SubmitParam.str raw
    | none => SubmitParam.undef
  else
    SubmitParam.obj transaction.data transaction.«from» transaction.gas
      transaction.gasPrice transaction.«to»

/-- The value an `async` JavaScript function resolves with when its body
completes without executing a `return` statement. -/
inductive SendResolution where
  | undefinedValue
  deriving DecidableEq

/-- Embeds `send(transaction, method)` (transactionManager.js lines 17-42),
in source order: await `_signIfNecessary`; build the lifecycle and `params`
(on the signed path `method.transactionConfirmationBlocks` is read, which
throws a `TypeError` when `method` is `undefined`); then
`try { const hash = await _submitTransaction(...); lifecycle.setSubmitted(hash); }
catch (err) { lifecycle.setFailedToSubmit(err); }`.  The body contains no
`return` statement, so a completed call resolves with `undefined`. -/
def send (rpc : RpcCollaborator) (transaction : Transaction)
    (method : Option Method) : Except JsError SendResolution := do
  let signedTransaction ← _signIfNecessary transaction method
  let lifecycleAndParams : Except JsError (TransactionLifecycle × SubmitParam) :=
    if _isSignedTransaction signedTransaction then
      match method with
      | none =>
        Except.error (JsError.typeError
          "Cannot read properties of undefined (reading transactionConfirmationBlocks)")
      | some m =>
        Except.ok
          (TransactionLifecycle.new signedTransaction m.transactionConfirmationBlocks,
            sendSubmitParam transaction signedTransaction)
    else
      Except.ok
        (TransactionLifecycle.new transaction none,
          sendSubmitParam transaction signedTransaction)
  match lifecycleAndParams with
  | Except.error e => Except.error e
  | Except.ok (lifecycle, params) =>
    match (do
        let _transactionHash ← _submitTransaction rpc params
        let _ ← lifecycle.setSubmitted
        (Except.ok () : Except JsError Unit)) with
    | Except.ok () => Except.ok SendResolution.undefinedValue
    | Except.error err =>
      match lifecycle.setFailedToSubmit err with
      | Except.ok _ => Except.ok SendResolution.undefinedValue
      | Except.error e2 => Except.error e2

/-- The JavaScript property read `lifecycle.transactionConfirmationBlocks`
performed by `_handleMined`.  `TransactionLifecycle` declares the getters
`transaction`, `stage`, `receipt` and `confirmationsRequired` and no
property named `transactionConfirmationBlocks`, so the read yields
`undefined` on every lifecycle object. -/
def TransactionLifecycle.transactionConfirmationBlocksRead
    (_l : TransactionLifecycle) : Option Nat :=
  none

/-- Embeds `_handleMined(lifecycle, receipt)` (transactionManager.js lines
74-78): when `lifecycle.transactionConfirmationBlocks` is falsy, call
`lifecycle.setConfirmed()`; otherwise do nothing. -/
def _handleMined (lifecycle : TransactionLifecycle) :
    Except JsError (TransactionLifecycle × List LifecycleEvent) :=
  if jsTruthyNum lifecycle.transactionConfirmationBlocksRead then
    Except.ok (lifecycle, [])
  else
    lifecycle.setConfirmed

/-- Embeds `_handleReorgedOut()` (transactionManager.js lines 86-87): the
function body is empty.  The handler was bound with a lifecycle argument
by `_initializeLifecycle`, but the function declares no parameter and
calls no transition method. -/
def _handleReorgedOut (lifecycle : TransactionLifecycle) :
    Except JsError (TransactionLifecycle × List LifecycleEvent) :=
  Except.ok (lifecycle, [])

/-- The event names the manager subscribes to in `_initializeLifecycle`
(transactionManager.js lines 59-66): all six are events of the lifecycle
object itself; no handler is attached to a BlockTracker and none listens
for a reorg notification. -/
def managerLifecycleSubscriptions : List String :=
  ["submitted", "failedToSubmit", "mined", "confirmed", "confirmedWithError",
    "reorgedOut"]

/-- A plain unsigned transaction used as a concrete test input. -/
def txSample : Transaction :=
  { data := none
    «from» := some "0xabc"
    gas := some "21000"
    gasPrice := some "1"
    «to» := some "0xdef"
    v := none
    r := none
    s := none
    rawTransaction := none }

/-- A concrete receipt used as a test input. -/
def receiptSample : Receipt :=
  { blockHash := "0xaa", blockNumber := 5 }

/-- A concrete error object used as a test input. -/
def errSample : JsError :=
  JsError.error "boom"

/-- A lifecycle object whose `_state` property holds the given value,
used to exercise the precondition check from each required stage. -/
def lifecycleInState (s : Option String) : TransactionLifecycle :=
  { TransactionLifecycle.new txSample none with _state := s }

/-- Every transition method throws: each call site passes
`_checkPrecondition` a single allowed state that differs from the desired
state, and the string branch of the check compares exactly those two
values, never `this._state`. -/
theorem applyOp_isErr (l : TransactionLifecycle) (op : LifecycleOp) :
    isErr (applyOp l op) = true := by
  cases op <;> rfl

/-- A throwing transition leaves the object unchanged, and every
transition throws, so `stepOp` is the identity on lifecycle states. -/
theorem stepOp_eq (l : TransactionLifecycle) (op : LifecycleOp) :
    stepOp l op = l := by
  cases op <;> rfl

/-- No sequence of transition attempts changes a lifecycle object. -/
theorem runOps_id (l : TransactionLifecycle) (ops : List LifecycleOp) :
    runOps l ops = l := by
  induction ops with
  | nil => rfl
  | cons op rest ih => rw [runOps, stepOp_eq]; exact ih

/-- C1: the claim says a transition invoked from its required current
stage passes the precondition check and advances the stage.  In the code
the check compares the allowed state against the desired state instead of
against the current state, so every transition operation throws even when
the current state equals its required state — here exercised for all six
operations from exactly their required states, and for a freshly
constructed lifecycle whose public stage is the required "unsubmitted". -/
theorem c1_transition_from_required_stage_throws :
    isErr (lifecycleInState (some "unsubmitted")).setSubmitted = true ∧
    isErr ((lifecycleInState (some "unsubmitted")).setFailedToSubmit errSample) = true ∧
    isErr ((lifecycleInState (some "submitted")).setMined receiptSample) = true ∧
    isErr (lifecycleInState (some "mined")).setConfirmed = true ∧
    isErr ((lifecycleInState (some "mined")).setConfirmedWithError errSample) = true ∧
    isErr (lifecycleInState (some "mined")).setReorgedOut = true ∧
    (TransactionLifecycle.new txSample none).stage = "unsubmitted" ∧
    isErr (TransactionLifecycle.new txSample none).setSubmitted = true := by
  exact ⟨rfl, rfl, rfl, rfl, rfl, rfl, rfl, rfl⟩

/-- A lifecycle constructed with `confirmationsRequired = 3`, the failing
input of the confirmation-counting claim. -/
def lifecycleThreeConfirmations : TransactionLifecycle :=
  TransactionLifecycle.new txSample (some 3)

/-- C2: the claim says `setConfirmed()` is called immediately upon mining
iff `confirmationsRequired` is 0, and with `confirmationsRequired = 3`
only after three later blocks.  In the code `_handleMined` reads
`lifecycle.transactionConfirmationBlocks`, a property the lifecycle class
does not define (its getter is `confirmationsRequired`), so the read is
`undefined`, the guard is always falsy, and `setConfirmed()` is invoked
immediately even though `confirmationsRequired` is 3. -/
theorem c2_handleMined_confirms_immediately_with_three_required :
    lifecycleThreeConfirmations.confirmationsRequired = some 3 ∧
    lifecycleThreeConfirmations.transactionConfirmationBlocksRead = none ∧
    _handleMined lifecycleThreeConfirmations =
      lifecycleThreeConfirmations.setConfirmed := by
  exact ⟨rfl, rfl, rfl⟩

/-- An RPC collaborator that always succeeds with a fixed hash. -/
def rpcAlwaysOk : RpcCollaborator :=
  fun _ _ => Except.ok "0xhash"

/-- An RPC collaborator that always reports a failure. -/
def rpcAlwaysFails : RpcCollaborator :=
  fun _ _ => Except.error (JsError.error "connection refused")

/-- C3: the claim says `send()` resolves with the created lifecycle and
never rejects on submission failure.  In the code, once submission is
reached, `lifecycle.setSubmitted(hash)` throws, the `catch` block calls
`lifecycle.setFailedToSubmit(err)`, and that throws as well, so `send()`
rejects — both when the RPC succeeds and when it fails; and the body has
no `return` statement, so it could only ever resolve with `undefined`,
never with the lifecycle. -/
theorem c3_send_rejects_once_submission_is_reached :
    isErr (send rpcAlwaysOk txSample none) = true ∧
    isErr (send rpcAlwaysFails txSample none) = true := by
  exact ⟨rfl, rfl⟩

/-- C4: the claim says each successful transition emits the event named
after the new stage and terminal transitions add exactly one `done`, so
exactly one `done` fires per lifecycle.  In the code every transition
throws at its precondition check before any `emit`, so no transition ever
succeeds and no lifecycle event — in particular no `done` — is ever
emitted. -/
theorem c4_no_lifecycle_event_is_ever_emitted (l : TransactionLifecycle)
    (op : LifecycleOp) :
    eventsOf (applyOp l op) = [] ∧ isErr (applyOp l op) = true := by
  cases op <;> exact ⟨rfl, rfl⟩

/-- A lifecycle object in the mined state holding a receipt, the scenario
of the reorg claim. -/
def minedLifecycle : TransactionLifecycle :=
  { TransactionLifecycle.new txSample (some 3) with
      _state := some "mined"
      _receipt := some receiptSample }

/-- C5: the claim says that on a reorg event detaching the mined block the
manager calls `setReorgedOut()` on a not-yet-terminal lifecycle.  In the
code the BlockTracker only ever emits `block` events (reorg emission is
absent), the manager subscribes to no BlockTracker event, and
`_handleReorgedOut` has an empty body, so no reorg ever leads to a
`setReorgedOut()` call and the lifecycle is left unchanged — also in the
concrete mined scenario of the claim. -/
theorem c5_reorg_path_performs_no_transition (t : BlockTracker)
    (h : BlockHeader) (l : TransactionLifecycle) :
    (blockTrackerOnData t h).2 = [BlockTrackerEvent.block h] ∧
    _handleReorgedOut l = Except.ok (l, []) ∧
    _handleReorgedOut minedLifecycle = Except.ok (minedLifecycle, []) := by
  exact ⟨rfl, rfl, rfl⟩

/-- A first incoming header. -/
def headerOne : BlockHeader :=
  { number := 1, hash := "0xa1", parentHash := "0xgenesis" }

/-- A header whose parent hash matches no tracked block. -/
def headerDiscontinuous : BlockHeader :=
  { number := 7, hash := "0xb7", parentHash := "0xorphan" }

/-- A tracker state whose latest block is `headerOne`. -/
def trackerAtOne : BlockTracker :=
  { _latestBlock := some headerOne }

/-- C6: the claim says the tracker updates `latestBlock` to each accepted
header and emits `block` only when the parent hash matches (or for the
first header).  In the code the "data" handler forwards every header as a
`block` event unconditionally: processing the first header leaves
`_latestBlock` at `null`, and a header whose parent hash matches nothing
is forwarded all the same. -/
theorem c6_tracker_forwards_unconditionally_and_never_updates_latest :
    (blockTrackerOnData BlockTracker.new headerOne).1._latestBlock = none ∧
    (blockTrackerOnData BlockTracker.new headerOne).2 =
      [BlockTrackerEvent.block headerOne] ∧
    headerDiscontinuous.parentHash ≠ headerOne.hash ∧
    (blockTrackerOnData trackerAtOne headerDiscontinuous).2 =
      [BlockTrackerEvent.block headerDiscontinuous] := by
  refine ⟨rfl, rfl, by decide, rfl⟩

/-- The invariant of the claim: the receipt is present exactly when the
stage is one of the post-mining stages. -/
def receiptStageInv (l : TransactionLifecycle) : Prop :=
  l.receipt.isSome = true ↔
    l.stage ∈ ["mined", "confirmed", "confirmedWithError", "reorgedOut"]

/-- C7: for every lifecycle, after any sequence of transition operations
starting from construction, the receipt is non-null iff the stage is one
of mined, confirmed, confirmedWithError, reorgedOut; and every single
transition operation preserves this invariant. -/
theorem c7_receipt_iff_stage_invariant (transaction : Transaction)
    (cr : Option Nat) (ops : List LifecycleOp) (l : TransactionLifecycle)
    (op : LifecycleOp) (hInv : receiptStageInv l) :
    receiptStageInv (runOps (TransactionLifecycle.new transaction cr) ops) ∧
    receiptStageInv (stepOp l op) := by
  constructor
  · rw [runOps_id]
    unfold receiptStageInv
    show Option.isSome none = true ↔
      "unsubmitted" ∈ ["mined", "confirmed", "confirmedWithError", "reorgedOut"]
    decide
  · rw [stepOp_eq]
    exact hInv

/-- Witness for C7 at a concrete lifecycle and operation sequence. -/
theorem c7_receipt_iff_stage_invariant_witness :
    receiptStageInv
      (runOps (TransactionLifecycle.new txSample (some 3))
        [LifecycleOp.opSetSubmitted, LifecycleOp.opSetMined receiptSample]) ∧
    receiptStageInv
      (stepOp (TransactionLifecycle.new txSample (some 3))
        LifecycleOp.opSetSubmitted) := by
  refine c7_receipt_iff_stage_invariant txSample (some 3)
    [LifecycleOp.opSetSubmitted, LifecycleOp.opSetMined receiptSample]
    (TransactionLifecycle.new txSample (some 3)) LifecycleOp.opSetSubmitted ?_
  unfold receiptStageInv
  decide

/-- The key material of the wallet-resolution claim. -/
def key1 : Wallet :=
  { address := some "0xABC", privateKey := some "0xkey1" }

/-- The wallet collection of the claim: a single entry keyed "0xABC". -/
def walletCollectionABC : List (String × Wallet) :=
  [("0xABC", key1)]

/-- C8: the claim says the address-string lookup is case-insensitive, so a
collection keyed "0xABC" is found from the designator "0xabc".  In the
code `_getWallet` throws a `TypeError` on every call because each branch
assigns to the `const` binding `wallet`; and even the lookup the final
branch attempts, `accounts.wallet[from.toLowerCase()]`, lowercases only
the designator, so the key "0xABC" is missed while the entry is present
under its original spelling. -/
theorem c8_address_lookup_is_not_case_insensitive :
    _getWallet (FromDesignator.str "0xabc") walletCollectionABC =
      Except.error (JsError.typeError "Assignment to constant variable.") ∧
    addressStringLookup walletCollectionABC "0xabc" = none ∧
    jsGet walletCollectionABC "0xABC" = some key1 := by
  exact ⟨rfl, rfl, rfl⟩

/-- C9: the RPC submission method is chosen purely from the shape of
`params[0]`: a string selects `eth_sendRawTransaction`, anything else
selects `eth_sendTransaction`; on the unsigned path `send` builds the
parameter object from exactly the fields `data`, `from`, `gas`,
`gasPrice`, `to`; and `_submitTransaction` passes exactly that
shape-chosen method to the RPC collaborator, consulting no flag. -/
theorem c9_submission_method_chosen_from_shape (rpc : RpcCollaborator)
    (p : SubmitParam) (t s : Transaction)
    (hUnsigned : _isSignedTransaction s = false) :
    (isStringParam p = true → submitRpcMethod p = "eth_sendRawTransaction") ∧
    (isStringParam p = false → submitRpcMethod p = "eth_sendTransaction") ∧
    sendSubmitParam t s =
      SubmitParam.obj t.data t.«from» t.gas t.gasPrice t.«to» ∧
    _submitTransaction rpc p = rpc (submitRpcMethod p) p := by
  refine ⟨?_, ?_, ?_, rfl⟩
  · intro hp
    simp [submitRpcMethod, hp]
  · intro hp
    simp [submitRpcMethod, hp]
  · simp [sendSubmitParam, hUnsigned]

/-- Witness for C9 at a concrete raw payload and a concrete unsigned
transaction. -/
theorem c9_submission_method_chosen_from_shape_witness :
    submitRpcMethod (SubmitParam.str "0xdead") = "eth_sendRawTransaction" ∧
    submitRpcMethod (SubmitParam.obj none none none none none) =
      "eth_sendTransaction" ∧
    sendSubmitParam txSample txSample =
      SubmitParam.obj txSample.data txSample.«from» txSample.gas
        txSample.gasPrice txSample.«to» := by
  have hstr := c9_submission_method_chosen_from_shape rpcAlwaysOk
    (SubmitParam.str "0xdead") txSample txSample (by decide)
  have hobj := c9_submission_method_chosen_from_shape rpcAlwaysOk
    (SubmitParam.obj none none none none none) txSample txSample (by decide)
  exact ⟨hstr.1 rfl, hobj.2.1 rfl, hstr.2.2.1⟩

/-- C10: the public `stage` getter reads the property `_stage`, which only
the constructor writes (the transition methods write the distinct property
`_state`, and in fact throw before writing anything), so after any
sequence of transition operations the getter still reports
"unsubmitted", and no single operation changes what it reports. -/
theorem c10_stage_getter_always_unsubmitted (transaction : Transaction)
    (cr : Option Nat) (ops : List LifecycleOp) (l : TransactionLifecycle)
    (op : LifecycleOp) :
    (runOps (TransactionLifecycle.new transaction cr) ops).stage = "unsubmitted" ∧
    (stepOp l op).stage = l.stage := by
  constructor
  · rw [runOps_id]
    rfl
  · rw [stepOp_eq]

end Web3
